import Mathlib

/-!
Shallow embedding of the dashbrr health-check engine: the autobrr,
maintainerr, prowlarr and generic-HTTP service checkers, their cache
interactions and their response classification, together with proofs of
the specification claims about them.

Network I/O is embedded as explicit outcome values: each embedded
operation receives, for every HTTP request the Go code would issue, an
`HttpOutcome` describing what the network returned (a transport-level
failure, a response whose body could not be read, or a response with a
status code, response-time header and body).  Response bodies carry both
the raw text and the result of JSON parsing, mirroring the two views the
Go code takes of the same bytes.
-/

namespace Dashbrr

/-- JSON value tree: the result of successfully parsing a body. -/
inductive Json where
  | null
  | bool (b : Bool)
  | num (n : Int)
  | str (s : String)
  | arr (xs : List Json)
  | obj (fields : List (String × Json))

/-- A response body as the Go code sees it: the raw bytes (as text) and
the JSON tree those bytes parse to, `none` when they are not valid JSON. -/
structure Body where
  raw : String
  json : Option Json

/-- Outcome of one HTTP request issued through the transport helper. -/
inductive HttpOutcome where
  | transport (errMsg : String)
  | readFail (code : Nat)
  | ok (code : Nat) (responseTimeMs : Int) (body : Body)

/-- Modelled from the spec: the core.ServiceCore cache accessors
(GetVersionFromCache / CacheVersion) live in the core package, which is
not among the provided sources.  Per the spec a cache entry is a string
value with an explicit expiry; a value is served only before its expiry,
and absence is indistinguishable from expiry (both read back as ""). -/
structure Cache where
  entries : List (String × String × Nat)

/-- Modelled from the spec: reading a key returns the stored value while
unexpired and the empty string otherwise. -/
def Cache.get (c : Cache) (now : Nat) (key : String) : String :=
  match c.entries.find? (fun e => e.1 == key) with
  | some e => if now < e.2.2 then e.2.1 else ""
  | none => ""

/-- One cache write performed by a checker: key, stored value, TTL in seconds. -/
structure CacheWrite where
  key : String
  value : String
  ttlSeconds : Nat
deriving DecidableEq

/-- An IRC sub-status entry as decoded by the autobrr checker. -/
structure IRCStatus where
  name : String
  healthy : Bool
  enabled : Bool
deriving DecidableEq

/-- Release statistics reported by autobrr. -/
structure AutobrrStats where
  totalCount : Int
  filteredCount : Int
  filterRejectedCount : Int
  pushApprovedCount : Int
  pushRejectedCount : Int
  pushErrorCount : Int
deriving DecidableEq

/-- The zero value of AutobrrStats, produced by Go on a failed stats fetch. -/
def emptyStats : AutobrrStats := ⟨0, 0, 0, 0, 0, 0⟩

/-- Heterogeneous value stored in a HealthResult's extras map. -/
inductive Extra where
  | str (s : String)
  | int (n : Int)
  | bool (b : Bool)
  | irc (l : List IRCStatus)
  | stats (s : AutobrrStats)
  | obj (fields : List (String × Extra))

/-- The normalized health result (models.ServiceHealth): status, message
and the open-ended extras map. -/
structure ServiceHealth where
  status : String
  message : String
  extras : List (String × Extra)

/-- Modelled from the spec: core.ServiceCore.CreateHealthResponse (core
package is not among the provided sources) packages a start timestamp,
status, message and optional extras into the normalized HealthResult. -/
def CreateHealthResponse (_startTime : Nat) (status message : String)
    (extras : List (String × Extra)) : ServiceHealth :=
  { status := status, message := message, extras := extras }

/-- Result of one CheckHealth call: the health payload, the HTTP status
returned to the caller, the number of network calls issued during the
check (goroutines included) and the cache writes performed. -/
structure CheckResult where
  health : ServiceHealth
  httpCode : Nat
  netCalls : Nat
  writes : List CacheWrite

/-- Result of one fetch operation (Go's (value, error) pair) together
with whether a network call was issued and the cache writes performed. -/
structure FetchResult (α : Type) where
  value : α
  err : Option String
  called : Bool
  writes : List CacheWrite

/-- Lookup of a field in a decoded JSON object (Go object keys are unique). -/
def lookupField (fields : List (String × Json)) (key : String) : Option Json :=
  (fields.find? (fun f => f.1 == key)).map (fun f => f.2)

/-- Lookup in an extras map. -/
def lookupExtra (extras : List (String × Extra)) (key : String) : Option Extra :=
  (extras.find? (fun f => f.1 == key)).map (fun f => f.2)

/-- Go json.Unmarshal semantics for a string-typed struct field: absent
or null leaves the zero value, a JSON string sets it, any other shape fails. -/
def decodeStrField (fields : List (String × Json)) (key : String) : Option String :=
  match lookupField fields key with
  | none => some ""
  | some Json.null => some ""
  | some (Json.str s) => some s
  | some _ => none

/-- Go json.Unmarshal semantics for a bool-typed struct field. -/
def decodeBoolField (fields : List (String × Json)) (key : String) : Option Bool :=
  match lookupField fields key with
  | none => some false
  | some Json.null => some false
  | some (Json.bool b) => some b
  | some _ => none

/-- Go json.Unmarshal semantics for an int-typed struct field. -/
def decodeIntField (fields : List (String × Json)) (key : String) : Option Int :=
  match lookupField fields key with
  | none => some 0
  | some Json.null => some 0
  | some (Json.num n) => some n
  | some _ => none

/-- Decoding a single IRCStatus object (json.Unmarshal into IRCStatus). -/
def decodeIRCStatus : Json → Option IRCStatus
  | Json.null => some ⟨"", false, false⟩
  | Json.obj fields => do
      let name ← decodeStrField fields "name"
      let healthy ← decodeBoolField fields "healthy"
      let enabled ← decodeBoolField fields "enabled"
      some ⟨name, healthy, enabled⟩
  | _ => none

/-- Decoding a list of IRCStatus (json.Unmarshal into a Go slice): null
decodes to the nil slice, an array decodes elementwise, all else fails. -/
def decodeIRCList : Json → Option (List IRCStatus)
  | Json.null => some []
  | Json.arr xs => xs.mapM decodeIRCStatus
  | _ => none

/-- Decoding autobrr's VersionResponse (a single version field). -/
def decodeVersionResponse : Json → Option String
  | Json.null => some ""
  | Json.obj fields => decodeStrField fields "version"
  | _ => none

/-- Decoding prowlarr's SystemStatusResponse (a single version field). -/
def decodeSystemStatusResponse : Json → Option String
  | Json.null => some ""
  | Json.obj fields => decodeStrField fields "version"
  | _ => none

/-- Maintainerr's StatusResponse. -/
structure StatusResponse where
  version : String
  updateAvailable : Bool
deriving DecidableEq

/-- Decoding maintainerr's StatusResponse. -/
def decodeStatusResponse : Json → Option StatusResponse
  | Json.null => some ⟨"", false⟩
  | Json.obj fields => do
      let v ← decodeStrField fields "version"
      let u ← decodeBoolField fields "updateAvailable"
      some ⟨v, u⟩
  | _ => none

/-- Decoding autobrr's release statistics. -/
def decodeAutobrrStats : Json → Option AutobrrStats
  | Json.null => some emptyStats
  | Json.obj fields => do
      let a ← decodeIntField fields "total_count"
      let b ← decodeIntField fields "filtered_count"
      let c ← decodeIntField fields "filter_rejected_count"
      let d ← decodeIntField fields "push_approved_count"
      let e ← decodeIntField fields "push_rejected_count"
      let f ← decodeIntField fields "push_error_count"
      some ⟨a, b, c, d, e, f⟩
  | _ => none

/-- Go json.Unmarshal into map[string]interface\x7b\x7d: a JSON object
yields its fields, null yields the nil map, anything else fails. -/
def decodeJsonMap : Json → Option (List (String × Json))
  | Json.null => some []
  | Json.obj fields => some fields
  | _ => none

/-- The slice of Go's http.StatusText used by these checkers. -/
def statusText (code : Nat) : String :=
  if code = 400 then "Bad Request"
  else if code = 401 then "Unauthorized"
  else if code = 403 then "Forbidden"
  else if code = 404 then "Not Found"
  else if code = 500 then "Internal Server Error"
  else if code = 502 then "Bad Gateway"
  else if code = 503 then "Service Unavailable"
  else if code = 504 then "Gateway Timeout"
  else ""

/-- Rendering of a Bool the way the Go code renders it into cache values. -/
def boolStr (b : Bool) : String := if b then "true" else "false"

/-- An ASCII whitespace character, as trimmed by Go strings.TrimSpace. -/
def isSpaceChar (c : Char) : Bool :=
  c = ' ' || c = '\t' || c = '\n' || c = '\r'

/-- Go strings.TrimSpace (over the character sets these services emit). -/
def goTrimSpace (s : String) : String :=
  String.mk (((s.toList.dropWhile isSpaceChar).reverse.dropWhile isSpaceChar).reverse)

/-- ASCII lower-casing of one character. -/
def lowerChar (c : Char) : Char :=
  if 'A' ≤ c && c ≤ 'Z' then Char.ofNat (c.toNat + 32) else c

/-- Go strings.ToLower (over the character sets these services emit). -/
def goToLower (s : String) : String :=
  String.mk (s.toList.map lowerChar)

/-- Go strings.TrimRight(s, "/"). -/
def trimRightSlashes (s : String) : String :=
  String.mk ((s.toList.reverse.dropWhile (fun c => c = '/')).reverse)

/-- Go strings.Trim(s, "\x22"): strip leading and trailing quote runs. -/
def trimQuotes (s : String) : String :=
  String.mk (((s.toList.dropWhile (fun c => c = '\"')).reverse.dropWhile (fun c => c = '\"')).reverse)

/-- Go json.Marshal of one IRCStatus value. -/
def ircMarshalOne (st : IRCStatus) : String :=
  "\x7b\"name\":\"" ++ st.name ++ "\",\"healthy\":" ++ boolStr st.healthy ++
    ",\"enabled\":" ++ boolStr st.enabled ++ "\x7d"

/-- Go json.Marshal of an IRCStatus slice; the nil slice (produced when
the filter keeps nothing) marshals to the literal null. -/
def ircMarshal (l : List IRCStatus) : String :=
  match l with
  | [] => "null"
  | _ => "[" ++ String.intercalate "," (l.map ircMarshalOne) ++ "]"

namespace Autobrr

/-- AutobrrService.getEndpoint. -/
def getEndpoint (baseURL path : String) : String :=
  trimRightSlashes baseURL ++ path

/-- AutobrrService.GetReleaseStats. -/
def GetReleaseStats (url apiKey : String) (outcome : HttpOutcome) :
    FetchResult AutobrrStats :=
  if url == "" || apiKey == "" then
    ⟨emptyStats, some "service not configured: missing URL or API key", false, []⟩
  else
    match outcome with
    | HttpOutcome.transport msg =>
        ⟨emptyStats, some ("request failed: " ++ msg), true, []⟩
    | HttpOutcome.readFail code =>
        if code != 200 then
          ⟨emptyStats, some ("unexpected status code: " ++ toString code), true, []⟩
        else
          ⟨emptyStats, some "failed to read response body", true, []⟩
    | HttpOutcome.ok code _ body =>
        if code != 200 then
          ⟨emptyStats, some ("unexpected status code: " ++ toString code), true, []⟩
        else
          match body.json.bind decodeAutobrrStats with
          | some stats => ⟨stats, none, true, []⟩
          | none =>
              ⟨emptyStats, some ("failed to decode response, body: " ++ body.raw), true, []⟩

/-- AutobrrService.GetIRCStatus.  The cache stores marshalled bytes; the
result of json.Unmarshal on those bytes is supplied as the `cachedParse`
oracle, exactly as the body's parse is supplied inside `Body`. -/
def GetIRCStatus (url apiKey : String) (cache : Cache) (now : Nat)
    (cachedParse : Option (List IRCStatus)) (outcome : HttpOutcome) :
    FetchResult (List IRCStatus) :=
  if url == "" || apiKey == "" then
    ⟨[], some "service not configured: missing URL or API key", false, []⟩
  else
    let cached := cache.get now (url ++ "_irc")
    let fromNetwork : FetchResult (List IRCStatus) :=
      match outcome with
      | HttpOutcome.transport msg =>
          ⟨[⟨"IRC", false, false⟩], some ("request failed: " ++ msg), true, []⟩
      | HttpOutcome.readFail code =>
          if code != 200 then
            ⟨[⟨"IRC", false, false⟩], some ("unexpected status code: " ++ toString code), true, []⟩
          else
            ⟨[⟨"IRC", false, false⟩], some "failed to read response body", true, []⟩
      | HttpOutcome.ok code _ body =>
          if code != 200 then
            ⟨[⟨"IRC", false, false⟩], some ("unexpected status code: " ++ toString code), true, []⟩
          else
            match body.json with
            | none =>
                ⟨[⟨"IRC", false, false⟩], some ("failed to decode response: " ++ body.raw), true, []⟩
            | some v =>
                match decodeIRCList v with
                | some allStatus =>
                    let unhealthyStatus :=
                      allStatus.filter (fun st => !st.healthy && st.enabled)
                    ⟨unhealthyStatus, none, true,
                      [⟨url ++ "_irc", ircMarshal unhealthyStatus, 300⟩]⟩
                | none =>
                    match decodeIRCStatus v with
                    | some singleStatus =>
                        if !singleStatus.healthy && singleStatus.enabled then
                          ⟨[singleStatus], none, true,
                            [⟨url ++ "_irc", ircMarshal [singleStatus], 300⟩]⟩
                        else
                          ⟨[], none, true, [⟨url ++ "_irc", "[]", 300⟩]⟩
                    | none =>
                        ⟨[⟨"IRC", false, false⟩], some ("failed to decode response: " ++ body.raw), true, []⟩
    if cached != "" then
      match cachedParse with
      | some l => ⟨l, none, false, []⟩
      | none => fromNetwork
    else fromNetwork

/-- AutobrrService.GetVersion. -/
def GetVersion (url _apiKey : String) (cache : Cache) (now : Nat)
    (outcome : HttpOutcome) : FetchResult String :=
  let cachedV := cache.get now url
  if cachedV != "" then ⟨cachedV, none, false, []⟩
  else
    match outcome with
    | HttpOutcome.transport msg => ⟨"", some msg, true, []⟩
    | HttpOutcome.readFail code =>
        if code != 200 then
          ⟨"", some ("unexpected status code: " ++ toString code), true, []⟩
        else
          ⟨"", some "failed to read response body", true, []⟩
    | HttpOutcome.ok code _ body =>
        if code != 200 then
          ⟨"", some ("unexpected status code: " ++ toString code), true, []⟩
        else
          match body.json.bind decodeVersionResponse with
          | some v => ⟨v, none, true, [⟨url, v, 7200⟩]⟩
          | none => ⟨"", some "failed to decode version response", true, []⟩

/-- AutobrrService.CheckUpdate.  The body is never read: any completed
HTTP exchange is classified (200 means update available, anything else
means none) and the outcome is cached for two hours. -/
def CheckUpdate (url _apiKey : String) (cache : Cache) (now : Nat)
    (outcome : HttpOutcome) : FetchResult Bool :=
  let cachedU := cache.get now (url ++ "_update")
  if cachedU != "" then ⟨cachedU == "true", none, false, []⟩
  else
    match outcome with
    | HttpOutcome.transport msg => ⟨false, some msg, true, []⟩
    | HttpOutcome.readFail code =>
        ⟨code == 200, none, true, [⟨url ++ "_update", boolStr (code == 200), 7200⟩]⟩
    | HttpOutcome.ok code _ _ =>
        ⟨code == 200, none, true, [⟨url ++ "_update", boolStr (code == 200), 7200⟩]⟩

/-- Environment of one AutobrrService.CheckHealth run: the shared cache,
the current time, one outcome per endpoint the check may hit, the parse
oracle for cached IRC bytes, and whether each background channel
delivered within its 2-second grace period. -/
structure Env where
  cache : Cache
  now : Nat
  ircCachedParse : Option (List IRCStatus)
  statsOutcome : HttpOutcome
  versionOutcome : HttpOutcome
  updateOutcome : HttpOutcome
  livenessOutcome : HttpOutcome
  ircOutcome : HttpOutcome
  versionTimely : Bool
  updateTimely : Bool

/-- AutobrrService.CheckHealth. -/
def CheckHealth (url apiKey : String) (env : Env) : CheckResult :=
  let startTime := env.now
  if url == "" || apiKey == "" then
    ⟨CreateHealthResponse startTime "pending" "Autobrr not configured" [], 200, 0, []⟩
  else
    let versionRes := GetVersion url apiKey env.cache env.now env.versionOutcome
    let updateRes := CheckUpdate url apiKey env.cache env.now env.updateOutcome
    let statsRes := GetReleaseStats url apiKey env.statsOutcome
    let stats := statsRes.value
    let baseCalls := (if versionRes.called then 1 else 0) +
      (if updateRes.called then 1 else 0) + (if statsRes.called then 1 else 0)
    let goWrites := versionRes.writes ++ updateRes.writes ++ statsRes.writes
    match env.livenessOutcome with
    | HttpOutcome.transport msg =>
        ⟨CreateHealthResponse startTime "offline" ("Failed to connect: " ++ msg) [],
          200, baseCalls + 1, goWrites⟩
    | HttpOutcome.readFail code =>
        if code != 200 then
          ⟨CreateHealthResponse startTime "error" ("Unexpected status code: " ++ toString code) [],
            200, baseCalls + 1, goWrites⟩
        else
          ⟨CreateHealthResponse startTime "error" "Failed to read response" [],
            200, baseCalls + 1, goWrites⟩
    | HttpOutcome.ok code responseTime body =>
        if code != 200 then
          ⟨CreateHealthResponse startTime "error" ("Unexpected status code: " ++ toString code) [],
            200, baseCalls + 1, goWrites⟩
        else
          let trimmedBody := trimQuotes (goTrimSpace body.raw)
          if trimmedBody != "healthy" && trimmedBody != "OK" then
            ⟨CreateHealthResponse startTime "error"
               ("Autobrr reported unhealthy status: " ++ trimmedBody) [],
              200, baseCalls + 1, goWrites⟩
          else
            let version := if env.versionTimely then versionRes.value else ""
            let hasUpdate := if env.updateTimely then updateRes.value else false
            let ircRes := GetIRCStatus url apiKey env.cache env.now env.ircCachedParse env.ircOutcome
            let calls := baseCalls + 1 + (if ircRes.called then 1 else 0)
            let writes := goWrites ++ ircRes.writes
            match ircRes.err with
            | some e =>
                ⟨CreateHealthResponse startTime "warning"
                   ("Autobrr is running but IRC status check failed: " ++ e)
                   [("version", Extra.str version),
                    ("responseTime", Extra.int responseTime),
                    ("updateAvailable", Extra.bool hasUpdate),
                    ("details", Extra.obj [("autobrr", Extra.obj [("irc", Extra.irc ircRes.value)])]),
                    ("stats", Extra.obj [("autobrr", Extra.stats stats)])],
                  200, calls, writes⟩
            | none =>
                let ircStatus := ircRes.value
                let ircHealthy :=
                  if ircStatus.isEmpty then true
                  else ircStatus.any (fun st => st.healthy)
                let extras := [("version", Extra.str version),
                  ("responseTime", Extra.int responseTime),
                  ("updateAvailable", Extra.bool hasUpdate),
                  ("stats", Extra.obj [("autobrr", Extra.stats stats)])]
                if !ircHealthy then
                  ⟨CreateHealthResponse startTime "warning"
                     "Autobrr is running but reports unhealthy IRC connections"
                     (extras ++ [("details", Extra.obj [("autobrr", Extra.obj [("irc", Extra.irc ircStatus)])])]),
                    200, calls, writes⟩
                else
                  ⟨CreateHealthResponse startTime "online" "Autobrr is running" extras,
                    200, calls, writes⟩

end Autobrr

namespace Maintainerr

/-- MaintainerrService.GetHealthEndpoint. -/
def GetHealthEndpoint (baseURL : String) : String :=
  trimRightSlashes baseURL ++ "/api/app/status"

/-- MaintainerrService.getVersion.  Note: the Go code never inspects the
status code here; any readable body that parses as a StatusResponse is
accepted and its version cached for one hour. -/
def getVersion (url : String) (cache : Cache) (now : Nat)
    (outcome : HttpOutcome) : FetchResult String :=
  let cachedV := cache.get now url
  if cachedV != "" then ⟨cachedV, none, false, []⟩
  else
    match outcome with
    | HttpOutcome.transport msg =>
        ⟨"", some ("maintainerr get_version: failed to make request: " ++ msg), true, []⟩
    | HttpOutcome.readFail _ =>
        ⟨"", some "maintainerr get_version: failed to read response", true, []⟩
    | HttpOutcome.ok _ _ body =>
        match body.json.bind decodeStatusResponse with
        | some statusResponse =>
            ⟨statusResponse.version, none, true, [⟨url, statusResponse.version, 3600⟩]⟩
        | none =>
            ⟨"", some "maintainerr get_version: failed to parse response", true, []⟩

/-- Environment of one MaintainerrService.CheckHealth run. -/
structure Env where
  cache : Cache
  now : Nat
  healthOutcome : HttpOutcome
  versionOutcome : HttpOutcome
  versionTimely : Bool

/-- MaintainerrService.CheckHealth. -/
def CheckHealth (url _apiKey : String) (env : Env) : CheckResult :=
  let startTime := env.now
  if url == "" then
    ⟨CreateHealthResponse startTime "error" "URL is required" [], 400, 0, []⟩
  else
    let versionRes := getVersion url env.cache env.now env.versionOutcome
    let goCalls := if versionRes.called then 1 else 0
    match env.healthOutcome with
    | HttpOutcome.transport msg =>
        ⟨CreateHealthResponse startTime "offline" ("Failed to connect: " ++ msg) [],
          200, goCalls + 1, versionRes.writes⟩
    | HttpOutcome.readFail _ =>
        ⟨CreateHealthResponse startTime "error" "Failed to read response" [],
          200, goCalls + 1, versionRes.writes⟩
    | HttpOutcome.ok code responseTime body =>
        if code ≥ 400 then
          let st := statusText code
          let message :=
            if code == 502 || code == 503 || code == 504 then
              "Service is temporarily unavailable (" ++ toString code ++ " " ++ st ++ ")"
            else if code == 401 then "Invalid API key"
            else if code == 403 then "Access forbidden"
            else if code == 404 then "Service endpoint not found"
            else "Server returned " ++ st ++ " (" ++ toString code ++ ")"
          ⟨CreateHealthResponse startTime "error" message [], 200, goCalls + 1, versionRes.writes⟩
        else
          match body.json.bind decodeStatusResponse with
          | none =>
              ⟨CreateHealthResponse startTime "error" "Failed to parse status response" [],
                200, goCalls + 1, versionRes.writes⟩
          | some statusResponse =>
              let version := if env.versionTimely then versionRes.value else ""
              let versionErr : Option String :=
                if env.versionTimely then versionRes.err else some "version check timed out"
              let baseExtras := [("version", Extra.str version),
                ("updateAvailable", Extra.bool statusResponse.updateAvailable),
                ("responseTime", Extra.int responseTime)]
              let extras :=
                match versionErr with
                | some e => baseExtras ++ [("versionError", Extra.str e)]
                | none => baseExtras
              ⟨CreateHealthResponse startTime "online" "Healthy" extras,
                200, goCalls + 1, versionRes.writes⟩

end Maintainerr

namespace Arr

/-- Modelled from the spec: arr.ArrHealthCheck — the shared arr-family
health algorithm (internal/services/arr is not among the provided
sources; ProwlarrService.CheckHealth delegates to it).  Spec section
4.3, common algorithm shape: an empty URL returns pending immediately
with no network call; a transport failure is classified offline; a
non-2xx status is classified error; a successful call whose body fails
to read or parse is classified error; otherwise the result is online. -/
def ArrHealthCheck (url _apiKey : String) (outcome : HttpOutcome) : CheckResult :=
  if url == "" then
    ⟨CreateHealthResponse 0 "pending" "Service not configured" [], 200, 0, []⟩
  else
    match outcome with
    | HttpOutcome.transport msg =>
        ⟨CreateHealthResponse 0 "offline" ("Failed to connect: " ++ msg) [], 200, 1, []⟩
    | HttpOutcome.readFail _ =>
        ⟨CreateHealthResponse 0 "error" "Failed to read response" [], 200, 1, []⟩
    | HttpOutcome.ok code _ _ =>
        if code < 200 || code ≥ 300 then
          ⟨CreateHealthResponse 0 "error" ("Unexpected status code: " ++ toString code) [], 200, 1, []⟩
        else
          ⟨CreateHealthResponse 0 "online" "Healthy" [], 200, 1, []⟩

end Arr

namespace Prowlarr

/-- ProwlarrService.GetSystemStatus. -/
def GetSystemStatus (baseURL _apiKey : String) (cache : Cache) (now : Nat)
    (outcome : HttpOutcome) : FetchResult String :=
  if baseURL == "" then
    ⟨"", some "prowlarr get_system_status: URL is required", false, []⟩
  else
    let cachedV := cache.get now baseURL
    if cachedV != "" then ⟨cachedV, none, false, []⟩
    else
      match outcome with
      | HttpOutcome.transport msg =>
          ⟨"", some ("prowlarr get_system_status: failed to make request: " ++ msg), true, []⟩
      | HttpOutcome.readFail code =>
          if code != 200 then
            ⟨"", some ("prowlarr get_system_status: server returned " ++ statusText code ++
                " (" ++ toString code ++ ")"), true, []⟩
          else
            ⟨"", some "prowlarr get_system_status: failed to read response", true, []⟩
      | HttpOutcome.ok code _ body =>
          if code != 200 then
            ⟨"", some ("prowlarr get_system_status: server returned " ++ statusText code ++
                " (" ++ toString code ++ ")"), true, []⟩
          else
            match body.json.bind decodeSystemStatusResponse with
            | some v => ⟨v, none, true, [⟨baseURL, v, 3600⟩]⟩
            | none => ⟨"", some "prowlarr get_system_status: failed to parse response", true, []⟩

/-- ProwlarrService.CheckHealth delegates to the shared arr-family
algorithm. -/
def CheckHealth (url apiKey : String) (outcome : HttpOutcome) : CheckResult :=
  Arr.ArrHealthCheck url apiKey outcome

end Prowlarr

namespace General

/-- GeneralService.CheckHealth. -/
def CheckHealth (url _apiKey : String) (outcome : HttpOutcome) : CheckResult :=
  if url == "" then
    ⟨CreateHealthResponse 0 "error" "URL is required" [], 400, 0, []⟩
  else
    match outcome with
    | HttpOutcome.transport msg =>
        ⟨CreateHealthResponse 0 "offline" ("Failed to connect: " ++ msg) [], 503, 1, []⟩
    | HttpOutcome.readFail _ =>
        ⟨CreateHealthResponse 0 "error" "Failed to read response" [], 500, 1, []⟩
    | HttpOutcome.ok code responseTime body =>
        let extras := [("responseTime", Extra.int responseTime)]
        match body.json.bind decodeJsonMap with
        | some fields =>
            let status :=
              match lookupField fields "status" with
              | some (Json.str statusVal) =>
                  let lowered := goToLower statusVal
                  if lowered == "healthy" || lowered == "ok" || lowered == "online" then "online"
                  else if lowered == "unhealthy" || lowered == "error" || lowered == "offline" then "offline"
                  else if lowered == "warning" then "warning"
                  else "unknown"
              | _ => "online"
            let message :=
              match lookupField fields "message" with
              | some (Json.str messageVal) => messageVal
              | _ => ""
            ⟨CreateHealthResponse 0 status message extras, code, 1, []⟩
        | none =>
            let textResponse := goTrimSpace body.raw
            if goToLower textResponse == "ok" then
              ⟨CreateHealthResponse 0 "online" "" extras, code, 1, []⟩
            else
              ⟨CreateHealthResponse 0 "error" ("Unexpected response: " ++ textResponse) extras,
                code, 1, []⟩

/-- GeneralService.GetVersion: version reporting is unsupported by
contract and always succeeds with the empty string. -/
def GetVersion (_url _apiKey : String) : FetchResult String :=
  ⟨"", none, false, []⟩

end General

/-- C10: AutobrrService.CheckHealth returns http.StatusOK (200) as the
HTTP status for the caller on every execution path — pending, offline,
error, warning and online alike — for every URL, credential and
upstream behaviour. -/
theorem autobrr_checkHealth_always_http200 (url apiKey : String) (env : Autobrr.Env) :
    (Autobrr.CheckHealth url apiKey env).httpCode = 200 := by
  unfold Autobrr.CheckHealth
  dsimp only
  repeat' split <;> try rfl

/-- C1 (counterexample): the generic-HTTP checker called with an empty
URL returns status "error", not "pending". -/
theorem general_empty_url_not_pending :
    (General.CheckHealth "" "key" (HttpOutcome.transport "unused")).health.status = "error" ∧
    (General.CheckHealth "" "key" (HttpOutcome.transport "unused")).health.status ≠ "pending" :=
  ⟨rfl, by decide⟩

/-- C1 (amended): with an empty URL and any credential, the autobrr and
prowlarr checkers return "pending", while maintainerr's and the generic
checker return "error" with message "URL is required"; in every case
zero network calls are performed. -/
theorem empty_url_behaviour (apiKey : String) (envA : Autobrr.Env)
    (envM : Maintainerr.Env) (o : HttpOutcome) :
    (Autobrr.CheckHealth "" apiKey envA).health.status = "pending" ∧
    (Autobrr.CheckHealth "" apiKey envA).netCalls = 0 ∧
    (Maintainerr.CheckHealth "" apiKey envM).health.status = "error" ∧
    (Maintainerr.CheckHealth "" apiKey envM).health.message = "URL is required" ∧
    (Maintainerr.CheckHealth "" apiKey envM).netCalls = 0 ∧
    (General.CheckHealth "" apiKey o).health.status = "error" ∧
    (General.CheckHealth "" apiKey o).health.message = "URL is required" ∧
    (General.CheckHealth "" apiKey o).netCalls = 0 ∧
    (Prowlarr.CheckHealth "" apiKey o).health.status = "pending" ∧
    (Prowlarr.CheckHealth "" apiKey o).netCalls = 0 :=
  ⟨rfl, rfl, rfl, rfl, rfl, rfl, rfl, rfl, rfl, rfl⟩

/-- C3: when the primary probe fails at the transport level, the
autobrr, maintainerr, generic and prowlarr checkers all classify the
result as exactly "offline". -/
theorem transport_failure_offline (url apiKey msg : String)
    (envA : Autobrr.Env) (envM : Maintainerr.Env)
    (hu : url ≠ "") (hk : apiKey ≠ "")
    (hA : envA.livenessOutcome = HttpOutcome.transport msg)
    (hM : envM.healthOutcome = HttpOutcome.transport msg) :
    (Autobrr.CheckHealth url apiKey envA).health.status = "offline" ∧
    (Maintainerr.CheckHealth url apiKey envM).health.status = "offline" ∧
    (General.CheckHealth url apiKey (HttpOutcome.transport msg)).health.status = "offline" ∧
    (Prowlarr.CheckHealth url apiKey (HttpOutcome.transport msg)).health.status = "offline" := by
  have h1 : (url == "") = false := by simp [hu]
  have h2 : (apiKey == "") = false := by simp [hk]
  refine ⟨?_, ?_, ?_, ?_⟩
  · simp [Autobrr.CheckHealth, h1, h2, hA, CreateHealthResponse]
  · simp [Maintainerr.CheckHealth, h1, hM, CreateHealthResponse]
  · simp [General.CheckHealth, h1, CreateHealthResponse]
  · simp [Prowlarr.CheckHealth, Arr.ArrHealthCheck, h1, CreateHealthResponse]

/-- C3 (witness): a concrete connection-refused probe on each checker. -/
theorem transport_failure_offline_witness :
    (Autobrr.CheckHealth "http://x" "k"
      ⟨⟨[]⟩, 0, none, HttpOutcome.transport "refused", HttpOutcome.transport "refused",
        HttpOutcome.transport "refused", HttpOutcome.transport "refused",
        HttpOutcome.transport "refused", true, true⟩).health.status = "offline" ∧
    (Maintainerr.CheckHealth "http://x" "k"
      ⟨⟨[]⟩, 0, HttpOutcome.transport "refused", HttpOutcome.transport "refused",
        true⟩).health.status = "offline" ∧
    (General.CheckHealth "http://x" "k"
      (HttpOutcome.transport "refused")).health.status = "offline" ∧
    (Prowlarr.CheckHealth "http://x" "k"
      (HttpOutcome.transport "refused")).health.status = "offline" :=
  transport_failure_offline "http://x" "k" "refused" _ _
    (by decide) (by decide) rfl rfl

/-- C2 (counterexample): the generic-HTTP checker ignores the HTTP
status code; a 500 response whose body is the plain text ok yields
status "online", not "error". -/
theorem general_http500_ok_body_online :
    (General.CheckHealth "http://x" "" (HttpOutcome.ok 500 0 ⟨"ok", none⟩)).health.status = "online" ∧
    (General.CheckHealth "http://x" "" (HttpOutcome.ok 500 0 ⟨"ok", none⟩)).health.status ≠ "error" :=
  ⟨rfl, by decide⟩

/-- C2 (amended): when the primary probe answers HTTP 500, the autobrr,
maintainerr and prowlarr checkers return status "error"; the generic checker
derives status from the body alone, so a 500 answer yields "error" when
the body is not a JSON object and is not the text ok (while for example
a body of ok yields "online"). -/
theorem http500_statuses (url apiKey : String) (hu : url ≠ "") (hk : apiKey ≠ "")
    (envA : Autobrr.Env) (envM : Maintainerr.Env) (rtA rtM rtG : Int)
    (bodyA bodyM bodyG : Body)
    (hA : envA.livenessOutcome = HttpOutcome.ok 500 rtA bodyA)
    (hM : envM.healthOutcome = HttpOutcome.ok 500 rtM bodyM)
    (hG : bodyG.json.bind decodeJsonMap = none)
    (hG2 : goToLower (goTrimSpace bodyG.raw) ≠ "ok") (rtP : Int) (bodyP : Body) :
    (Autobrr.CheckHealth url apiKey envA).health.status = "error" ∧
    (Maintainerr.CheckHealth url apiKey envM).health.status = "error" ∧
    (General.CheckHealth url apiKey (HttpOutcome.ok 500 rtG bodyG)).health.status = "error" ∧
    (Prowlarr.CheckHealth url apiKey (HttpOutcome.ok 500 rtP bodyP)).health.status = "error" := by
  have h1 : (url == "") = false := by simp [hu]
  have h2 : (apiKey == "") = false := by simp [hk]
  have h3 : (goToLower (goTrimSpace bodyG.raw) == "ok") = false := by simp [hG2]
  refine ⟨?_, ?_, ?_, ?_⟩
  · simp [Autobrr.CheckHealth, h1, h2, hA, CreateHealthResponse]
  · simp [Maintainerr.CheckHealth, h1, hM, CreateHealthResponse]
  · simp [General.CheckHealth, h1, hG, h3, CreateHealthResponse]
  · simp [Prowlarr.CheckHealth, Arr.ArrHealthCheck, h1, CreateHealthResponse]

/-- C2 (witness): concrete 500 answers on each checker. -/
theorem http500_statuses_witness :
    (Autobrr.CheckHealth "http://x" "k"
      ⟨⟨[]⟩, 0, none, HttpOutcome.transport "e", HttpOutcome.transport "e",
        HttpOutcome.transport "e", HttpOutcome.ok 500 0 ⟨"oops", none⟩,
        HttpOutcome.transport "e", true, true⟩).health.status = "error" ∧
    (Maintainerr.CheckHealth "http://x" "k"
      ⟨⟨[]⟩, 0, HttpOutcome.ok 500 0 ⟨"oops", none⟩, HttpOutcome.transport "e",
        true⟩).health.status = "error" ∧
    (General.CheckHealth "http://x" "k"
      (HttpOutcome.ok 500 0 ⟨"oops", none⟩)).health.status = "error" ∧
    (Prowlarr.CheckHealth "http://x" "k"
      (HttpOutcome.ok 500 0 ⟨"oops", none⟩)).health.status = "error" :=
  http500_statuses "http://x" "k" (by decide) (by decide) _ _ 0 0 0 _ _ ⟨"oops", none⟩
    rfl rfl rfl (by decide) 0 ⟨"oops", none⟩

/-- C4 (counterexample): a JSON body whose status field is "online" is
mapped to status "online" by the generic checker, where the claimed
mapping (any value outside the listed synonyms maps to unknown)
requires "unknown". -/
theorem general_status_online_counterexample :
    (General.CheckHealth "http://x" ""
      (HttpOutcome.ok 200 0 ⟨"\x7b\"status\":\"online\"\x7d",
        some (Json.obj [("status", Json.str "online")])⟩)).health.status = "online" ∧
    (General.CheckHealth "http://x" ""
      (HttpOutcome.ok 200 0 ⟨"\x7b\"status\":\"online\"\x7d",
        some (Json.obj [("status", Json.str "online")])⟩)).health.status ≠ "unknown" :=
  ⟨rfl, by decide⟩

/-- C4 (amended): for a reachable upstream the generic checker maps a
JSON object body through its status field case-insensitively — healthy,
ok and online map to "online"; unhealthy, error and offline map to
"offline"; warning maps to "warning"; any other string maps to
"unknown" — and copies the message field into the result message; a
non-JSON body that trims case-insensitively to ok yields "online", and
any other non-JSON body yields "error" with a message quoting the
trimmed body. -/
theorem general_body_mapping (url apiKey : String) (hu : url ≠ "")
    (code : Nat) (rt : Int) (body : Body) :
    (∀ fields sv, body.json = some (Json.obj fields) →
        lookupField fields "status" = some (Json.str sv) →
        (General.CheckHealth url apiKey (HttpOutcome.ok code rt body)).health.status =
          (if goToLower sv ∈ (["healthy", "ok", "online"] : List String) then "online"
           else if goToLower sv ∈ (["unhealthy", "error", "offline"] : List String) then "offline"
           else if goToLower sv = "warning" then "warning"
           else "unknown")) ∧
    (∀ fields mv, body.json = some (Json.obj fields) →
        lookupField fields "message" = some (Json.str mv) →
        (General.CheckHealth url apiKey (HttpOutcome.ok code rt body)).health.message = mv) ∧
    (body.json.bind decodeJsonMap = none → goToLower (goTrimSpace body.raw) = "ok" →
        (General.CheckHealth url apiKey (HttpOutcome.ok code rt body)).health.status = "online") ∧
    (body.json.bind decodeJsonMap = none → goToLower (goTrimSpace body.raw) ≠ "ok" →
        (General.CheckHealth url apiKey (HttpOutcome.ok code rt body)).health.status = "error" ∧
        (General.CheckHealth url apiKey (HttpOutcome.ok code rt body)).health.message =
          "Unexpected response: " ++ goTrimSpace body.raw) := by
  have h1 : (url == "") = false := by simp [hu]
  refine ⟨?_, ?_, ?_, ?_⟩
  · intro fields sv hj hs
    have h2 : body.json.bind decodeJsonMap = some fields := by rw [hj]; rfl
    simp only [General.CheckHealth, h1, Bool.false_eq_true, if_false, h2, hs]
    simp only [List.mem_cons, List.not_mem_nil, or_false, Bool.or_eq_true, beq_iff_eq]
    split_ifs <;> simp_all [CreateHealthResponse]
  · intro fields mv hj hm
    have h2 : body.json.bind decodeJsonMap = some fields := by rw [hj]; rfl
    simp [General.CheckHealth, h1, h2, hm, CreateHealthResponse]
  · intro hj hok
    simp [General.CheckHealth, h1, hj, hok, CreateHealthResponse]
  · intro hj hne
    have h3 : (goToLower (goTrimSpace body.raw) == "ok") = false := by simp [hne]
    simp [General.CheckHealth, h1, hj, h3, CreateHealthResponse]

/-- C4 (witness): the spec scenarios evaluated concretely — a JSON body
with status "OK" and message "all good" yields status "online" with
that message, and the plain-text bodies "OK" and "nope" yield "online"
and "error" respectively. -/
theorem general_body_mapping_witness :
    (General.CheckHealth "http://x" ""
      (HttpOutcome.ok 200 5 ⟨"\x7b\"status\":\"OK\",\"message\":\"all good\"\x7d",
        some (Json.obj [("status", Json.str "OK"), ("message", Json.str "all good")])⟩)).health.status = "online" ∧
    (General.CheckHealth "http://x" ""
      (HttpOutcome.ok 200 5 ⟨"\x7b\"status\":\"OK\",\"message\":\"all good\"\x7d",
        some (Json.obj [("status", Json.str "OK"), ("message", Json.str "all good")])⟩)).health.message = "all good" ∧
    (General.CheckHealth "http://x" "" (HttpOutcome.ok 200 5 ⟨"OK", none⟩)).health.status = "online" ∧
    (General.CheckHealth "http://x" "" (HttpOutcome.ok 200 5 ⟨"nope", none⟩)).health.status = "error" ∧
    (General.CheckHealth "http://x" "" (HttpOutcome.ok 200 5 ⟨"nope", none⟩)).health.message =
      "Unexpected response: nope" := by
  have hj := general_body_mapping "http://x" "" (by decide) 200 5
    ⟨"\x7b\"status\":\"OK\",\"message\":\"all good\"\x7d",
      some (Json.obj [("status", Json.str "OK"), ("message", Json.str "all good")])⟩
  have hOK := general_body_mapping "http://x" "" (by decide) 200 5 ⟨"OK", none⟩
  have hNope := general_body_mapping "http://x" "" (by decide) 200 5 ⟨"nope", none⟩
  refine ⟨?_, ?_, ?_, ?_, ?_⟩
  · have hs := hj.1 [("status", Json.str "OK"), ("message", Json.str "all good")] "OK" rfl rfl
    rw [hs]; decide
  · exact hj.2.1 [("status", Json.str "OK"), ("message", Json.str "all good")] "all good" rfl rfl
  · exact hOK.2.2.1 rfl (by decide)
  · exact (hNope.2.2.2 rfl (by decide)).1
  · exact (hNope.2.2.2 rfl (by decide)).2

/-- C5: the IRC sub-status decoder attempts array decoding first and
falls back to single-object decoding, declaring a parse error only when
both fail; a decoded array is filtered to exactly its unhealthy-and-
enabled elements, and a decoded single unhealthy-and-enabled object
yields the one-element list containing it. -/
theorem irc_lenient_decoding (url apiKey : String) (cache : Cache) (now : Nat)
    (cp : Option (List IRCStatus)) (rt : Int) (body : Body)
    (hu : url ≠ "") (hk : apiKey ≠ "")
    (hc : cache.get now (url ++ "_irc") = "") :
    (∀ v l, body.json = some v → decodeIRCList v = some l →
        (Autobrr.GetIRCStatus url apiKey cache now cp (HttpOutcome.ok 200 rt body)).err = none ∧
        (Autobrr.GetIRCStatus url apiKey cache now cp (HttpOutcome.ok 200 rt body)).value =
          l.filter (fun st => !st.healthy && st.enabled)) ∧
    (∀ v st, body.json = some v → decodeIRCList v = none → decodeIRCStatus v = some st →
        (Autobrr.GetIRCStatus url apiKey cache now cp (HttpOutcome.ok 200 rt body)).err = none ∧
        (Autobrr.GetIRCStatus url apiKey cache now cp (HttpOutcome.ok 200 rt body)).value =
          (if !st.healthy && st.enabled then [st] else [])) ∧
    (∀ v, body.json = some v → decodeIRCList v = none → decodeIRCStatus v = none →
        (Autobrr.GetIRCStatus url apiKey cache now cp (HttpOutcome.ok 200 rt body)).err =
          some ("failed to decode response: " ++ body.raw)) ∧
    (body.json = none →
        (Autobrr.GetIRCStatus url apiKey cache now cp (HttpOutcome.ok 200 rt body)).err =
          some ("failed to decode response: " ++ body.raw)) := by
  have h1 : (url == "") = false := by simp [hu]
  have h2 : (apiKey == "") = false := by simp [hk]
  refine ⟨?_, ?_, ?_, ?_⟩
  · intro v l hj hl
    constructor <;> simp [Autobrr.GetIRCStatus, h1, h2, hc, hj, hl]
  · intro v st hj hl hs
    constructor <;> simp [Autobrr.GetIRCStatus, h1, h2, hc, hj, hl, hs] <;> split <;> simp
  · intro v hj hl hs
    simp [Autobrr.GetIRCStatus, h1, h2, hc, hj, hl, hs]
  · intro hj
    simp [Autobrr.GetIRCStatus, h1, h2, hc, hj]

/-- C5 (witness): the spec scenario — an array of one healthy and one
enabled-unhealthy entry filters to exactly the unhealthy one, and the
same single object un-wrapped yields the same one-element list. -/
theorem irc_lenient_decoding_witness :
    (Autobrr.GetIRCStatus "http://x" "k" ⟨[]⟩ 0 none
      (HttpOutcome.ok 200 0 ⟨"two-entry array",
        some (Json.arr
          [Json.obj [("name", Json.str "net1"), ("healthy", Json.bool true), ("enabled", Json.bool true)],
           Json.obj [("name", Json.str "net2"), ("healthy", Json.bool false), ("enabled", Json.bool true)]])⟩)).value =
      [⟨"net2", false, true⟩] ∧
    (Autobrr.GetIRCStatus "http://x" "k" ⟨[]⟩ 0 none
      (HttpOutcome.ok 200 0 ⟨"single object",
        some (Json.obj [("name", Json.str "net2"), ("healthy", Json.bool false), ("enabled", Json.bool true)])⟩)).value =
      [⟨"net2", false, true⟩] := by
  have hArr := irc_lenient_decoding "http://x" "k" ⟨[]⟩ 0 none 0
    ⟨"two-entry array",
      some (Json.arr
        [Json.obj [("name", Json.str "net1"), ("healthy", Json.bool true), ("enabled", Json.bool true)],
         Json.obj [("name", Json.str "net2"), ("healthy", Json.bool false), ("enabled", Json.bool true)]])⟩
    (by decide) (by decide) rfl
  have hSingle := irc_lenient_decoding "http://x" "k" ⟨[]⟩ 0 none 0
    ⟨"single object",
      some (Json.obj [("name", Json.str "net2"), ("healthy", Json.bool false), ("enabled", Json.bool true)])⟩
    (by decide) (by decide) rfl
  constructor
  · have h := (hArr.1 _ [⟨"net1", true, true⟩, ⟨"net2", false, true⟩] rfl rfl).2
    rw [h]; decide
  · have h := (hSingle.2.1 _ ⟨"net2", false, true⟩ rfl rfl rfl).2
    rw [h]; decide

/-- C6 (counterexample): autobrr's CheckUpdate caches "false" for two
hours even when the update endpoint answers HTTP 500, a failed
(non-2xx) call. -/
theorem checkUpdate_caches_on_500 :
    (Autobrr.CheckUpdate "http://x" "k" ⟨[]⟩ 0
      (HttpOutcome.ok 500 0 ⟨"oops", none⟩)).writes =
        [⟨"http://x_update", "false", 7200⟩] := rfl

/-- C6 (amended): prowlarr's GetSystemStatus and autobrr's GetVersion
and GetIRCStatus write the cache only after a successful call — never
on a transport error, a non-200 status code or a parse failure;
maintainerr's getVersion never writes on a transport error or parse
failure but ignores the status code, writing whenever the body decodes;
autobrr's CheckUpdate writes the update flag after every completed HTTP
exchange regardless of status code — only a transport error (or a cache
hit) suppresses that write. -/
theorem cache_write_conditions (url apiKey msg : String) (cache : Cache) (now : Nat)
    (code : Nat) (rt : Int) (body : Body) :
    ((Prowlarr.GetSystemStatus url apiKey cache now (HttpOutcome.transport msg)).writes = []) ∧
    ((Autobrr.GetVersion url apiKey cache now (HttpOutcome.transport msg)).writes = []) ∧
    ((Autobrr.GetIRCStatus url apiKey cache now none (HttpOutcome.transport msg)).writes = []) ∧
    ((Maintainerr.getVersion url cache now (HttpOutcome.transport msg)).writes = []) ∧
    (code ≠ 200 →
      (Prowlarr.GetSystemStatus url apiKey cache now (HttpOutcome.ok code rt body)).writes = [] ∧
      (Autobrr.GetVersion url apiKey cache now (HttpOutcome.ok code rt body)).writes = [] ∧
      (Autobrr.GetIRCStatus url apiKey cache now none (HttpOutcome.ok code rt body)).writes = []) ∧
    (body.json.bind decodeSystemStatusResponse = none →
      (Prowlarr.GetSystemStatus url apiKey cache now (HttpOutcome.ok code rt body)).writes = []) ∧
    (body.json.bind decodeVersionResponse = none →
      (Autobrr.GetVersion url apiKey cache now (HttpOutcome.ok code rt body)).writes = []) ∧
    (body.json.bind decodeStatusResponse = none →
      (Maintainerr.getVersion url cache now (HttpOutcome.ok code rt body)).writes = []) ∧
    (cache.get now url = "" → ∀ st, body.json.bind decodeStatusResponse = some st →
      (Maintainerr.getVersion url cache now (HttpOutcome.ok code rt body)).writes =
        [⟨url, st.version, 3600⟩]) ∧
    (cache.get now (url ++ "_update") = "" →
      (Autobrr.CheckUpdate url apiKey cache now (HttpOutcome.ok code rt body)).writes =
        [⟨url ++ "_update", boolStr (code == 200), 7200⟩]) ∧
    (body.json = none →
      (Autobrr.GetIRCStatus url apiKey cache now none (HttpOutcome.ok code rt body)).writes = []) ∧
    (∀ v, body.json = some v → decodeIRCList v = none → decodeIRCStatus v = none →
      (Autobrr.GetIRCStatus url apiKey cache now none (HttpOutcome.ok code rt body)).writes = []) := by
  refine ⟨?_, ?_, ?_, ?_, ?_, ?_, ?_, ?_, ?_, ?_, ?_, ?_⟩
  · unfold Prowlarr.GetSystemStatus
    dsimp only
    repeat' split <;> try rfl
  · unfold Autobrr.GetVersion
    dsimp only
    repeat' split <;> try rfl
  · unfold Autobrr.GetIRCStatus
    dsimp only
    repeat' split <;> try rfl
  · unfold Maintainerr.getVersion
    dsimp only
    repeat' split <;> try rfl
  · intro hc
    have hcb : (code != 200) = true := by simp [hc]
    refine ⟨?_, ?_, ?_⟩
    · unfold Prowlarr.GetSystemStatus
      dsimp only
      repeat' split <;> first | rfl | simp_all
    · unfold Autobrr.GetVersion
      dsimp only
      repeat' split <;> first | rfl | simp_all
    · unfold Autobrr.GetIRCStatus
      dsimp only
      repeat' split <;> try rfl
      all_goals simp_all
  · intro hp
    unfold Prowlarr.GetSystemStatus
    dsimp only
    simp only [hp]
    repeat' split
    all_goals rfl
  · intro hp
    unfold Autobrr.GetVersion
    dsimp only
    simp only [hp]
    repeat' split
    all_goals rfl
  · intro hp
    unfold Maintainerr.getVersion
    dsimp only
    simp only [hp]
    repeat' split
    all_goals rfl
  · intro hc st hp
    simp [Maintainerr.getVersion, hc, hp]
  · intro hc
    simp [Autobrr.CheckUpdate, hc]
  · intro hj
    unfold Autobrr.GetIRCStatus
    dsimp only
    simp only [hj]
    repeat' split
    all_goals rfl
  · intro v hj hl hs
    unfold Autobrr.GetIRCStatus
    dsimp only
    simp only [hj, hl, hs]
    repeat' split
    all_goals rfl

/-- C6 (witness): concrete failed calls produce no writes, a decodable
maintainerr body with a 500 code still writes, and CheckUpdate writes
"false" on a 204 answer. -/
theorem cache_write_conditions_witness :
    (Prowlarr.GetSystemStatus "http://x" "k" ⟨[]⟩ 0 (HttpOutcome.transport "refused")).writes = [] ∧
    (Autobrr.GetVersion "http://x" "k" ⟨[]⟩ 0 (HttpOutcome.ok 500 0 ⟨"oops", none⟩)).writes = [] ∧
    (Maintainerr.getVersion "http://x" ⟨[]⟩ 0
      (HttpOutcome.ok 500 0 ⟨"version json", some (Json.obj [("version", Json.str "1.0")])⟩)).writes =
        [⟨"http://x", "1.0", 3600⟩] ∧
    (Autobrr.CheckUpdate "http://x" "k" ⟨[]⟩ 0 (HttpOutcome.ok 204 0 ⟨"", none⟩)).writes =
        [⟨"http://x_update", "false", 7200⟩] := by
  have h1 := cache_write_conditions "http://x" "k" "refused" ⟨[]⟩ 0 500 0 ⟨"oops", none⟩
  have h2 := cache_write_conditions "http://x" "k" "refused" ⟨[]⟩ 0 500 0
    ⟨"version json", some (Json.obj [("version", Json.str "1.0")])⟩
  have h3 := cache_write_conditions "http://x" "k" "refused" ⟨[]⟩ 0 204 0 ⟨"", none⟩
  refine ⟨h1.1, ?_, ?_, ?_⟩
  · exact (h1.2.2.2.2.1 (by decide)).2.1
  · exact h2.2.2.2.2.2.2.2.2.1 rfl ⟨"1.0", false⟩ rfl
  · exact h3.2.2.2.2.2.2.2.2.2.1 rfl

/-- C7 (counterexample): maintainerr with a healthy primary probe and a
failed auxiliary version sub-check returns status "online", not
"warning". -/
theorem maintainerr_degraded_not_warning :
    (Maintainerr.CheckHealth "http://x" "k"
      ⟨⟨[]⟩, 0, HttpOutcome.ok 200 0 ⟨"status json", some (Json.obj [])⟩,
        HttpOutcome.transport "dns failure", true⟩).health.status = "online" ∧
    (Maintainerr.CheckHealth "http://x" "k"
      ⟨⟨[]⟩, 0, HttpOutcome.ok 200 0 ⟨"status json", some (Json.obj [])⟩,
        HttpOutcome.transport "dns failure", true⟩).health.status ≠ "warning" :=
  ⟨rfl, by decide⟩

/-- C7 (amended): when the primary probe succeeds but an auxiliary
sub-check fails, autobrr returns "warning" with the IRC failure reason
embedded in the message, while maintainerr keeps status "online" and
attaches the version failure reason as the versionError extra instead
of replacing the message. -/
theorem degraded_auxiliary_behaviour (url apiKey e ev : String)
    (envA : Autobrr.Env) (envM : Maintainerr.Env)
    (rtA rtM : Int) (bodyA bodyM : Body) (st : StatusResponse)
    (hu : url ≠ "") (hk : apiKey ≠ "")
    (hA : envA.livenessOutcome = HttpOutcome.ok 200 rtA bodyA)
    (hBody : trimQuotes (goTrimSpace bodyA.raw) = "healthy")
    (hIrc : (Autobrr.GetIRCStatus url apiKey envA.cache envA.now
        envA.ircCachedParse envA.ircOutcome).err = some e)
    (hM : envM.healthOutcome = HttpOutcome.ok 200 rtM bodyM)
    (hParse : bodyM.json.bind decodeStatusResponse = some st)
    (hTimely : envM.versionTimely = true)
    (hVer : (Maintainerr.getVersion url envM.cache envM.now envM.versionOutcome).err = some ev) :
    (Autobrr.CheckHealth url apiKey envA).health.status = "warning" ∧
    (Autobrr.CheckHealth url apiKey envA).health.message =
      "Autobrr is running but IRC status check failed: " ++ e ∧
    (Maintainerr.CheckHealth url apiKey envM).health.status = "online" ∧
    (Maintainerr.CheckHealth url apiKey envM).health.message = "Healthy" ∧
    lookupExtra (Maintainerr.CheckHealth url apiKey envM).health.extras "versionError" =
      some (Extra.str ev) := by
  have h1 : (url == "") = false := by simp [hu]
  have h2 : (apiKey == "") = false := by simp [hk]
  refine ⟨?_, ?_, ?_, ?_, ?_⟩
  · simp [Autobrr.CheckHealth, h1, h2, hA, hBody, hIrc, CreateHealthResponse]
  · simp [Autobrr.CheckHealth, h1, h2, hA, hBody, hIrc, CreateHealthResponse]
  · simp [Maintainerr.CheckHealth, h1, hM, hParse, hTimely, hVer, CreateHealthResponse]
  · simp [Maintainerr.CheckHealth, h1, hM, hParse, hTimely, hVer, CreateHealthResponse]
  · simp [Maintainerr.CheckHealth, h1, hM, hParse, hTimely, hVer, CreateHealthResponse,
      lookupExtra]

/-- C7 (witness): concrete degraded-auxiliary runs of both checkers. -/
theorem degraded_auxiliary_behaviour_witness :
    (Autobrr.CheckHealth "http://x" "k"
      ⟨⟨[]⟩, 0, none, HttpOutcome.transport "stats down", HttpOutcome.transport "cfg down",
        HttpOutcome.transport "upd down", HttpOutcome.ok 200 0 ⟨"healthy", none⟩,
        HttpOutcome.transport "irc down", true, true⟩).health.status = "warning" ∧
    (Maintainerr.CheckHealth "http://x" "k"
      ⟨⟨[]⟩, 0, HttpOutcome.ok 200 0 ⟨"status json", some (Json.obj [])⟩,
        HttpOutcome.transport "dns failure", true⟩).health.status = "online" ∧
    lookupExtra (Maintainerr.CheckHealth "http://x" "k"
      ⟨⟨[]⟩, 0, HttpOutcome.ok 200 0 ⟨"status json", some (Json.obj [])⟩,
        HttpOutcome.transport "dns failure", true⟩).health.extras "versionError" =
      some (Extra.str "maintainerr get_version: failed to make request: dns failure") := by
  have h := degraded_auxiliary_behaviour "http://x" "k"
    "request failed: irc down" "maintainerr get_version: failed to make request: dns failure"
    ⟨⟨[]⟩, 0, none, HttpOutcome.transport "stats down", HttpOutcome.transport "cfg down",
      HttpOutcome.transport "upd down", HttpOutcome.ok 200 0 ⟨"healthy", none⟩,
      HttpOutcome.transport "irc down", true, true⟩
    ⟨⟨[]⟩, 0, HttpOutcome.ok 200 0 ⟨"status json", some (Json.obj [])⟩,
      HttpOutcome.transport "dns failure", true⟩
    0 0 ⟨"healthy", none⟩ ⟨"status json", some (Json.obj [])⟩ ⟨"", false⟩
    (by decide) (by decide) rfl (by decide) rfl rfl rfl rfl rfl
  exact ⟨h.1, h.2.2.1, h.2.2.2.2⟩

/-- C8: a cached, unexpired version / system-status / update / IRC
sub-status value short-circuits the corresponding fetch operation — the
cached value is returned and no network call is issued for that
signal. -/
theorem cache_hit_no_network (url apiKey v w x : String) (cache : Cache) (now : Nat)
    (outcome : HttpOutcome) (l : List IRCStatus)
    (hv : v ≠ "") (hw : w ≠ "") (hx : x ≠ "") :
    (cache.get now url = v →
      (Autobrr.GetVersion url apiKey cache now outcome).value = v ∧
      (Autobrr.GetVersion url apiKey cache now outcome).called = false ∧
      (Maintainerr.getVersion url cache now outcome).value = v ∧
      (Maintainerr.getVersion url cache now outcome).called = false) ∧
    (url ≠ "" → cache.get now url = v →
      (Prowlarr.GetSystemStatus url apiKey cache now outcome).value = v ∧
      (Prowlarr.GetSystemStatus url apiKey cache now outcome).called = false) ∧
    (cache.get now (url ++ "_update") = w →
      (Autobrr.CheckUpdate url apiKey cache now outcome).value = (w == "true") ∧
      (Autobrr.CheckUpdate url apiKey cache now outcome).called = false) ∧
    (url ≠ "" → apiKey ≠ "" → cache.get now (url ++ "_irc") = x →
      (Autobrr.GetIRCStatus url apiKey cache now (some l) outcome).value = l ∧
      (Autobrr.GetIRCStatus url apiKey cache now (some l) outcome).called = false) := by
  refine ⟨?_, ?_, ?_, ?_⟩
  · intro hc
    refine ⟨?_, ?_, ?_, ?_⟩ <;> simp [Autobrr.GetVersion, Maintainerr.getVersion, hc, hv]
  · intro hu hc
    have h1 : (url == "") = false := by simp [hu]
    constructor <;> simp [Prowlarr.GetSystemStatus, h1, hc, hv]
  · intro hc
    constructor <;> simp [Autobrr.CheckUpdate, hc, hw]
  · intro hu hk hc
    have h1 : (url == "") = false := by simp [hu]
    have h2 : (apiKey == "") = false := by simp [hk]
    constructor <;> simp [Autobrr.GetIRCStatus, h1, h2, hc, hx]

/-- C8 (witness): a concrete cache holding a version, an update flag and
an IRC sub-status list, all unexpired, is consulted without any network
call even though the network would refuse the connection. -/
theorem cache_hit_no_network_witness :
    (Autobrr.GetVersion "http://x" "k"
      ⟨[("http://x", "1.2.3", 10), ("http://x_update", "true", 10), ("http://x_irc", "null", 10)]⟩
      0 (HttpOutcome.transport "down")).value = "1.2.3" ∧
    (Autobrr.GetVersion "http://x" "k"
      ⟨[("http://x", "1.2.3", 10), ("http://x_update", "true", 10), ("http://x_irc", "null", 10)]⟩
      0 (HttpOutcome.transport "down")).called = false ∧
    (Autobrr.CheckUpdate "http://x" "k"
      ⟨[("http://x", "1.2.3", 10), ("http://x_update", "true", 10), ("http://x_irc", "null", 10)]⟩
      0 (HttpOutcome.transport "down")).value = true ∧
    (Autobrr.GetIRCStatus "http://x" "k"
      ⟨[("http://x", "1.2.3", 10), ("http://x_update", "true", 10), ("http://x_irc", "null", 10)]⟩
      0 (some []) (HttpOutcome.transport "down")).value = [] ∧
    (Autobrr.GetIRCStatus "http://x" "k"
      ⟨[("http://x", "1.2.3", 10), ("http://x_update", "true", 10), ("http://x_irc", "null", 10)]⟩
      0 (some []) (HttpOutcome.transport "down")).called = false := by
  have h := cache_hit_no_network "http://x" "k" "1.2.3" "true" "null"
    ⟨[("http://x", "1.2.3", 10), ("http://x_update", "true", 10), ("http://x_irc", "null", 10)]⟩
    0 (HttpOutcome.transport "down") []
    (by decide) (by decide) (by decide)
  have hv := h.1 rfl
  have hupd := h.2.2.1 (by decide)
  have hirc := h.2.2.2 (by decide) (by decide) (by decide)
  exact ⟨hv.1, hv.2.1, by rw [hupd.1]; decide, hirc.1, hirc.2⟩

end Dashbrr
